import Mathlib

/-!
Verification of the AutoTest YAML-driven browser test runner.

Shallow embedding of the four source modules:
  - `src/browser_automation/parser/script_parser.py` (script model, parsing, validation)
  - `src/browser_automation/engine/actions.py` (the action dispatcher `BrowserActions`)
  - `src/browser_automation/engine/browser_engine.py` (`TestResult`, `execute_script`,
    `run_test_file`)
  - `src/browser_automation/cli/main.py` (`run_tests`, validate-only mode of `main`)

Browser side effects (Playwright calls, screenshots, the wall clock) are modelled as
oracles: each potentially-raising external call is given an `Outcome` (success or an
exception message) as input, and the embedding reproduces the source's control flow over
those outcomes.
-/

set_option autoImplicit false

namespace AutoTest

/-- A parameter value appearing in a step's parameter mapping (YAML scalars: strings,
integers, booleans). Only equality of values matters to the properties proved here. -/
inductive Val where
  | s (v : String)
  | i (v : Int)
  | b (v : Bool)
  deriving DecidableEq, Repr

/-- A parameter mapping: an association list from parameter names to values, mirroring a
Python `dict` whose keys are unique. -/
abbrev Params := List (String × Val)

/-- `TestStep` from script_parser.py: one action invocation with named parameters.
The constructor stores the action name and keeps the remaining keyword arguments as
`params`. -/
structure TestStep where
  action : String
  params : Params
  deriving DecidableEq, Repr

/-- `TestScript` from script_parser.py: a complete parsed test script. -/
structure TestScript where
  name : String
  description : String
  base_url : String
  headless : Bool
  steps : List TestStep
  timeout : Int
  screenshot_on_failure : Bool
  deriving DecidableEq, Repr

/-- One entry of the YAML `steps` list after YAML parsing: the `action` key and the
remaining keys. (`TestScript.from_dict` pops `action` and passes the rest as keyword
arguments; step dictionaries without an `action` key raise before `from_dict` returns
and do not occur in the claims considered here.) -/
structure StepData where
  action : String
  params : Params
  deriving DecidableEq, Repr

/-- The YAML document as a Python dict, field by field: `none` models an absent key.
This is the input of `TestScript.from_dict`. -/
structure ScriptData where
  name : Option String
  description : Option String
  base_url : Option String
  headless : Option Bool
  timeout : Option Int
  screenshot_on_failure : Option Bool
  steps : Option (List StepData)
  deriving DecidableEq, Repr

/-- `TestScript.from_dict` from script_parser.py: every field is read with
`data.get(key, default)`; in particular a missing `name` key defaults to
`"Unnamed Test"` and a missing `steps` key defaults to the empty list. -/
def TestScript.from_dict (data : ScriptData) : TestScript :=
  { name := data.name.getD "Unnamed Test"
    description := data.description.getD ""
    base_url := data.base_url.getD "http://localhost:5000"
    headless := data.headless.getD true
    timeout := data.timeout.getD 30000
    screenshot_on_failure := data.screenshot_on_failure.getD true
    steps := (data.steps.getD []).map (fun sd => { action := sd.action, params := sd.params }) }

/-- The `valid_actions` registry from `ScriptParser.validate_script`: the 19 known
actions with their required parameter names, in source order. -/
def valid_actions : List (String × List String) :=
  [ ("navigate", ["url"])
  , ("click", ["selector"])
  , ("type", ["selector", "text"])
  , ("wait_for_selector", ["selector"])
  , ("assert_text", ["selector", "expected"])
  , ("assert_visible", ["selector"])
  , ("upload_file", ["selector", "file_path"])
  , ("screenshot", ["filename"])
  , ("wait", ["ms"])
  , ("select_option", ["selector", "value"])
  , ("check", ["selector"])
  , ("uncheck", ["selector"])
  , ("hover", ["selector"])
  , ("press", ["selector", "key"])
  , ("evaluate_js", ["script"])
  , ("count_elements", ["selector"])
  , ("assert_count", ["selector", "expected"])
  , ("assert_min_count", ["selector", "minimum"])
  , ("get_text", ["selector"])
  ]

/-- The 19 registered action names (the keys of `valid_actions`). -/
def registeredActions : List String := valid_actions.map Prod.fst

/-- Required parameter names of a registered action; `none` for an unknown action
(models `step.action not in valid_actions`). -/
def requiredParams (action : String) : Option (List String) :=
  (valid_actions.find? (fun kv => kv.1 = action)).map Prod.snd

/-- Python `repr` of a list of strings, as interpolated into the missing-parameters
message by the f-string in validate_script. -/
def pyReprStrList (l : List String) : String :=
  "[" ++ String.intercalate ", " (l.map (fun x => "\x27" ++ x ++ "\x27")) ++ "]"

/-- The validation errors contributed by one step (1-indexed as `i`), mirroring the
loop body of `ScriptParser.validate_script`: an unknown action yields one error and
skips the parameter check; a known action with missing required parameters yields one
error listing all missing names. -/
def stepErrors (i : Nat) (step : TestStep) : List String :=
  match requiredParams step.action with
  | none => ["Step " ++ toString i ++ ": Unknown action \x27" ++ step.action ++ "\x27"]
  | some required =>
      let missing := required.filter (fun p => p ∉ step.params.map Prod.fst)
      if missing = [] then []
      else ["Step " ++ toString i ++ ": Action \x27" ++ step.action ++
              "\x27 missing required parameters: " ++ pyReprStrList missing]

/-- Helper: the errors of the step loop of validate_script starting at 1-based index
`i`. -/
def stepsErrorsFrom (i : Nat) : List TestStep → List String
  | [] => []
  | step :: rest => stepErrors i step ++ stepsErrorsFrom (i + 1) rest

/-- `ScriptParser.validate_script` from script_parser.py: collects (never
short-circuits) the name check, the non-empty-steps check, and the per-step checks,
in source order. Python truthiness: `not script.name` is true exactly for the empty
string, `not script.steps` exactly for the empty list. -/
def validate_script (script : TestScript) : List String :=
  (if script.name = "" then ["Script must have a name"] else []) ++
  (if script.steps = [] then ["Script must have at least one step"] else []) ++
  stepsErrorsFrom 1 script.steps

/-! ## Action dispatcher (`engine/actions.py`) -/

/-- The attribute names of a `BrowserActions` instance that are defined in
`engine/actions.py` itself: its 19 action methods, the dispatcher `execute_action`,
the constructor, and the instance attribute `page` set by the constructor.
`getattr(self, action, None)` in `execute_action` resolves these names and, in
addition, the attributes the class inherits from `object`; the inherited set is a
parameter of `execute_action` below, since its exact contents vary with the Python
version. -/
def browserActionsAttrs : List String :=
  registeredActions ++ ["execute_action", "__init__", "page"]

/-- Whether a name has Python "dunder" shape: it starts and ends with a double
underscore. Every attribute a `BrowserActions` instance inherits from `object`
(`__str__`, `__repr__`, `__class__`, `__doc__`, `__dict__`, ...) has this shape, in
every Python version; this is the one structural fact the amended C2 theorem uses
about the inherited set. -/
def isDunderName (s : String) : Bool :=
  (s.data.take 2 == ['_', '_']) && (s.data.reverse.take 2 == ['_', '_'])

/-- The attributes a `BrowserActions` instance inherits from `object` in CPython 3.x:
a representative concrete instantiation of the inherited-attribute parameter of
`execute_action` (all of them dunder names). -/
def objectAttrs : List String :=
  [ "__class__", "__delattr__", "__dict__", "__dir__", "__doc__", "__eq__"
  , "__format__", "__ge__", "__getattribute__", "__gt__", "__hash__", "__init__"
  , "__init_subclass__", "__le__", "__lt__", "__module__", "__ne__", "__new__"
  , "__reduce__", "__reduce_ex__", "__repr__", "__setattr__", "__sizeof__"
  , "__str__", "__subclasshook__", "__weakref__" ]

/-- Outcome of `BrowserActions.execute_action(action, params)` in terms of control
flow: either the `ValueError("Unknown action: ...")` raised when `getattr` returns
`None`, or the invocation `method(**params)` of the attribute found. -/
inductive DispatchResult where
  | unknownAction (msg : String)
  | invoked (attr : String) (params : Params)
  deriving DecidableEq, Repr

/-- `BrowserActions.execute_action` from actions.py: looks the action name up with
`getattr(self, action, None)`, which resolves the class-local and instance
attributes (`browserActionsAttrs`) as well as the attributes inherited from
`object` (`inherited`, version-dependent); a `None` result raises `ValueError`,
otherwise the found attribute is called with the parameters as keyword arguments. -/
def execute_action (inherited : List String) (action : String) (params : Params) :
    DispatchResult :=
  if action ∈ browserActionsAttrs ∨ action ∈ inherited then
    DispatchResult.invoked action params
  else
    DispatchResult.unknownAction ("Unknown action: " ++ action)

/-- The named (non-`**kwargs`) parameters of each action method's `def` signature in
actions.py, in order. Keys of the parameter mapping beyond these are collected into
the method's `**kwargs`. -/
def methodNamedParams (action : String) : List String :=
  match action with
  | "navigate" => ["url"]
  | "click" => ["selector"]
  | "type" => ["selector", "text"]
  | "wait_for_selector" => ["selector", "timeout"]
  | "assert_text" => ["selector", "expected"]
  | "assert_visible" => ["selector"]
  | "upload_file" => ["selector", "file_path"]
  | "screenshot" => ["filename"]
  | "wait" => ["ms"]
  | "select_option" => ["selector", "value"]
  | "check" => ["selector"]
  | "uncheck" => ["selector"]
  | "hover" => ["selector"]
  | "press" => ["selector", "key"]
  | "evaluate_js" => ["script"]
  | "count_elements" => ["selector"]
  | "assert_count" => ["selector", "expected"]
  | "assert_min_count" => ["selector", "minimum"]
  | "get_text" => ["selector"]
  | _ => []

/-- Which parameters of the step's mapping reach the browser-driver call(s) made by
each action method's body in actions.py, paired with the driver capability invoked.

All method bodies forward their named parameters together with `**kwargs` to the
driver call — except these five, whose bodies drop `**kwargs`:
  - `wait` calls `page.wait_for_timeout(ms)` with `ms` only;
  - `count_elements`, `assert_count`, `assert_min_count` call
    `page.locator(selector).count()` with `selector` only;
  - `get_text` calls `page.locator(selector).text_content()` with `selector` only. -/
def driverCall (action : String) (params : Params) : String × Params :=
  match action with
  | "navigate" => ("page.goto", params)
  | "click" => ("page.click", params)
  | "type" => ("page.fill", params)
  | "wait_for_selector" => ("page.wait_for_selector", params)
  | "assert_text" => ("expect.to_contain_text", params)
  | "assert_visible" => ("expect.to_be_visible", params)
  | "upload_file" => ("page.set_input_files", params)
  | "screenshot" => ("page.screenshot", params)
  | "wait" => ("page.wait_for_timeout", params.filter (fun kv => kv.1 = "ms"))
  | "select_option" => ("page.select_option", params)
  | "check" => ("page.check", params)
  | "uncheck" => ("page.uncheck", params)
  | "hover" => ("page.hover", params)
  | "press" => ("page.press", params)
  | "evaluate_js" => ("page.evaluate", params)
  | "count_elements" => ("locator.count", params.filter (fun kv => kv.1 = "selector"))
  | "assert_count" => ("locator.count", params.filter (fun kv => kv.1 = "selector"))
  | "assert_min_count" => ("locator.count", params.filter (fun kv => kv.1 = "selector"))
  | "get_text" => ("locator.text_content", params.filter (fun kv => kv.1 = "selector"))
  | _ => ("", [])

/-- The 14 registered actions whose method bodies forward `**kwargs` (and hence every
extra parameter) to the underlying driver call. -/
def forwardingActions : List String :=
  [ "navigate", "click", "type", "wait_for_selector", "assert_text", "assert_visible"
  , "upload_file", "screenshot", "select_option", "check", "uncheck", "hover", "press"
  , "evaluate_js" ]

/-! ## Execution engine (`engine/browser_engine.py`) -/

/-- Outcome of one external (Playwright) call: success, or an exception carrying a
message. -/
inductive Outcome where
  | ok
  | err (msg : String)
  deriving DecidableEq, Repr

/-- The environment of one `execute_script` run: the outcome of each external call,
and the wall-clock readings taken by the two `datetime.now()` calls. `dispatch i` is
the outcome of `self.actions.execute_action` at the 1-based step index `i`;
`screenshot i` is the outcome of the `self.page.screenshot` call made when step `i`
fails. -/
structure EngineEnv where
  timeoutOutcome : Outcome
  dispatch : Nat → Outcome
  screenshot : Nat → Outcome
  startTime : Int
  endTime : Int

/-- `TestResult` from browser_engine.py. Timestamps are wall-clock readings
(modelled as integers); `none` models a `None` timestamp. -/
structure TestResult where
  script_name : String
  passed : Bool
  error : Option String
  start_time : Option Int
  end_time : Option Int
  steps_executed : Nat
  steps_total : Nat
  screenshots : List String
  deriving DecidableEq, Repr

/-- The fresh result built by `TestResult.__init__(script_name)`. -/
def TestResult.init (script_name : String) : TestResult :=
  { script_name := script_name
    passed := false
    error := none
    start_time := none
    end_time := none
    steps_executed := 0
    steps_total := 0
    screenshots := [] }

/-- The `duration` property of `TestResult`: the difference of the two timestamps when
both are set (a `datetime` is always truthy in Python), else `0.0`. -/
def TestResult.duration (r : TestResult) : Int :=
  match r.start_time, r.end_time with
  | some s, some e => e - s
  | _, _ => 0

/-- State threaded through the step loop of `execute_script`: the mutated fields of
the in-flight result. -/
structure LoopState where
  executed : Nat
  errField : Option String
  shots : List String
  deriving DecidableEq, Repr

/-- Python `s.replace(' ', '_')`: for a one-character pattern and replacement this is
exactly a character-by-character map over the string. -/
def replaceSpaces (s : String) : String :=
  String.mk (s.data.map (fun ch => if ch = ' ' then '_' else ch))

/-- The deterministic failure-screenshot path built in `execute_script` for script
`name` at 1-based step index `i`:
`f"failure_{script.name.replace(' ', '_')}_{i}.png"`. -/
def screenshotPath (name : String) (i : Nat) : String :=
  "failure_" ++ replaceSpaces name ++ "_" ++ toString i ++ ".png"

/-- The first failure message recorded by `execute_script` when step `i` (running
`step`) raises `e`. -/
def stepFailureMsg (i : Nat) (step : TestStep) (e : String) : String :=
  "Step " ++ toString i ++ " failed (" ++ step.action ++ "): " ++ e

/-- The `except` handler of the step loop of `execute_script`, for a failure of step
`i` (running `step`) with exception message `e`: the failure message is written to the
result's `error`; when `screenshot_on_failure` is set a failure screenshot is taken
and appended (an exception of the screenshot call itself propagating instead of the
re-raise); finally the step's exception is re-raised. The second component is the
exception that propagates out of the loop. -/
def failBranch (env : EngineEnv) (script : TestScript) (i : Nat) (step : TestStep)
    (e : String) (st : LoopState) : LoopState × Option String :=
  let st := { st with errField := some (stepFailureMsg i step e) }
  if script.screenshot_on_failure then
    match env.screenshot i with
    | Outcome.ok =>
        ({ st with shots := st.shots ++ [screenshotPath script.name i] }, some e)
    | Outcome.err m2 => (st, some m2)
  else
    (st, some e)

/-- The step loop of `execute_script`, from 1-based index `i`: on a successful
dispatch `steps_executed` is incremented and the loop continues; on a failed dispatch
the `except` handler `failBranch` runs and the loop aborts. Returns the final mutated
state and `some exc` when an exception propagated out of the loop. -/
def stepLoop (env : EngineEnv) (script : TestScript) :
    List TestStep → Nat → LoopState → LoopState × Option String
  | [], _, st => (st, none)
  | step :: rest, i, st =>
    match env.dispatch i with
    | Outcome.ok =>
        stepLoop env script rest (i + 1) { st with executed := st.executed + 1 }
    | Outcome.err e => failBranch env script i step e st

/-- `BrowserEngine.execute_script` from browser_engine.py: builds a fresh result,
stamps `start_time`, fixes `steps_total`, runs `set_default_timeout` and the step loop
inside a `try`; the `except` clause clears `passed` and sets `error` only if it is
still unset; the `finally` clause stamps `end_time` on every path. -/
def execute_script (env : EngineEnv) (script : TestScript) : TestResult :=
  let base := { TestResult.init script.name with
                  start_time := some env.startTime
                  steps_total := script.steps.length }
  let afterTry :=
    match env.timeoutOutcome with
    | Outcome.err m =>
        { base with passed := false, error := some m }
    | Outcome.ok =>
        let p := stepLoop env script script.steps 1 ⟨0, none, []⟩
        let st := p.1
        let r := { base with
                     steps_executed := st.executed
                     error := st.errField
                     screenshots := st.shots }
        match p.2 with
        | none => { r with passed := true }
        | some e =>
            { r with
                passed := false
                error := match st.errField with
                         | some m => some m
                         | none => some e }
  { afterTry with end_time := some env.endTime }

/-- `BrowserEngine.run_test_file` from browser_engine.py, with the file load and the
browser session supplied as oracles: a parse failure propagates; a script with
validation errors raises `ValueError("Script validation failed:...")`; otherwise the
script is executed. (The headless-mode session restart touches no field of the
returned result and is not modelled.) -/
def run_test_file (parse : Except String TestScript) (env : EngineEnv) :
    Except String TestResult :=
  match parse with
  | Except.error e => Except.error e
  | Except.ok script =>
      let errors := validate_script script
      if errors = [] then
        Except.ok (execute_script env script)
      else
        Except.error ("Script validation failed:\n" ++
          String.intercalate "\n" (errors.map (fun e => "  - " ++ e)))

/-! ## CLI (`cli/main.py`) -/

/-- One script path of a batch, with the oracles `run_test_file` needs for it: the
outcome of `ScriptParser.parse_file` and the engine environment of its execution. -/
structure ScriptJob where
  path : String
  parse : Except String TestScript
  env : EngineEnv

/-- The per-script body of the loop in `run_tests`: a result returned by
`run_test_file` is collected as-is; an exception yields a fresh `TestResult` named by
the script path with `error` set to the exception message (and `passed` left at its
`False` default). -/
def runOneJob (job : ScriptJob) : TestResult :=
  match run_test_file job.parse job.env with
  | Except.ok r => r
  | Except.error e => { TestResult.init job.path with error := some e }

/-- `run_tests` from cli/main.py: every script of the batch is processed by the loop
(an exception for one script is caught and the loop continues); the exit code is 0
exactly when no collected result failed. -/
def run_tests (jobs : List ScriptJob) : List TestResult × Nat :=
  let results := jobs.map runOneJob
  let passedCount := (results.filter (fun r => r.passed)).length
  let failedCount := results.length - passedCount
  (results, if failedCount = 0 then 0 else 1)

/-- The validate-only branch of `main` (cli/main.py, `if args.validate:`): each script
path is parsed and validated; a parse exception or a non-empty error list clears
`all_valid`; the returned exit code is 0 iff every script was valid. The per-script
error lists are those of `validate_script` on the parsed script. -/
def validateMode (parses : List (Except String ScriptData)) : Nat :=
  if parses.all (fun p =>
      match p with
      | Except.error _ => false
      | Except.ok data => validate_script (TestScript.from_dict data) = []) then 0
  else 1

/-! ## Concrete sample inputs used by witnesses and counterexamples -/

/-- Placeholder step used as the default value of `List.getD` on step lists. -/
def dfltStep : TestStep := { action := "", params := [] }

/-- A YAML document with no `name` key and one well-formed `navigate` step. -/
def noNameData : ScriptData :=
  { name := none, description := none, base_url := none, headless := none,
    timeout := none, screenshot_on_failure := none,
    steps := some [{ action := "navigate", params := [("url", Val.s "http://x")] }] }

/-- A YAML document whose `name` key is present but holds the empty string, with one
well-formed `navigate` step. -/
def emptyNameData : ScriptData :=
  { name := some "", description := none, base_url := none, headless := none,
    timeout := none, screenshot_on_failure := none,
    steps := some [{ action := "navigate", params := [("url", Val.s "http://x")] }] }

/-- A three-step sample script (its name contains a space, so the screenshot path
exercises the space replacement). -/
def sampleScript : TestScript :=
  { name := "my test", description := "", base_url := "http://localhost:5000",
    headless := true,
    steps :=
      [ { action := "click", params := [("selector", Val.s "#a")] }
      , { action := "assert_text",
          params := [("selector", Val.s "#b"), ("expected", Val.s "hi")] }
      , { action := "click", params := [("selector", Val.s "#c")] } ],
    timeout := 30000, screenshot_on_failure := true }

/-- A script with an empty name and an empty steps list. -/
def noStepScript : TestScript :=
  { name := "", description := "", base_url := "http://localhost:5000",
    headless := true, steps := [], timeout := 30000, screenshot_on_failure := true }

/-- A script whose steps list is empty. -/
def emptySteps : TestScript :=
  { name := "empty", description := "", base_url := "http://localhost:5000",
    headless := true, steps := [], timeout := 30000, screenshot_on_failure := true }

/-- An environment in which every external call succeeds. -/
def allOkEnv : EngineEnv :=
  { timeoutOutcome := Outcome.ok, dispatch := fun _ => Outcome.ok,
    screenshot := fun _ => Outcome.ok, startTime := 0, endTime := 5 }

/-- An environment in which the dispatch of step 2 raises `"boom"` and every other
external call succeeds. -/
def failAt2Env : EngineEnv :=
  { timeoutOutcome := Outcome.ok,
    dispatch := fun i => if i = 2 then Outcome.err "boom" else Outcome.ok,
    screenshot := fun _ => Outcome.ok, startTime := 0, endTime := 5 }

/-- A batch entry whose file load raises (malformed path), as in Scenario D. -/
def badJob : ScriptJob :=
  { path := "missing.yaml",
    parse := Except.error "Test script not found: missing.yaml",
    env := allOkEnv }

/-- A batch entry that loads, validates and executes cleanly. -/
def goodJob : ScriptJob :=
  { path := "good.yaml", parse := Except.ok sampleScript, env := allOkEnv }

/-! ## Helper lemmas -/

theorem failBranch_fst_errField (env : EngineEnv) (script : TestScript) (i : Nat)
    (step : TestStep) (e : String) (st : LoopState) :
    (failBranch env script i step e st).1.errField = some (stepFailureMsg i step e) := by
  unfold failBranch
  split
  · cases env.screenshot i <;> rfl
  · rfl

theorem failBranch_fst_executed (env : EngineEnv) (script : TestScript) (i : Nat)
    (step : TestStep) (e : String) (st : LoopState) :
    (failBranch env script i step e st).1.executed = st.executed := by
  unfold failBranch
  split
  · cases env.screenshot i <;> rfl
  · rfl

theorem failBranch_snd_ne_none (env : EngineEnv) (script : TestScript) (i : Nat)
    (step : TestStep) (e : String) (st : LoopState) :
    (failBranch env script i step e st).2 ≠ none := by
  unfold failBranch
  split
  · cases env.screenshot i <;> simp
  · simp

theorem stepLoop_all_ok (env : EngineEnv) (script : TestScript) :
    ∀ (steps : List TestStep) (i : Nat) (st : LoopState),
      (∀ j, i ≤ j → j < i + steps.length → env.dispatch j = Outcome.ok) →
      stepLoop env script steps i st =
        ({ st with executed := st.executed + steps.length }, none)
  | [], i, st, _ => by simp [stepLoop]
  | step :: rest, i, st, h => by
      have hi : env.dispatch i = Outcome.ok :=
        h i le_rfl (by simp only [List.length_cons]; omega)
      have ih := stepLoop_all_ok env script rest (i + 1)
        { st with executed := st.executed + 1 }
        (fun j hj1 hj2 => h j (by omega)
          (by simp only [List.length_cons]; omega))
      simp only [stepLoop, hi, ih, List.length_cons]
      have harith : st.executed + 1 + rest.length = st.executed + (rest.length + 1) := by
        omega
      rw [harith]

theorem stepLoop_first_fail (env : EngineEnv) (script : TestScript) :
    ∀ (steps : List TestStep) (i : Nat) (st : LoopState) (k : Nat) (e : String),
      i ≤ k → k < i + steps.length →
      (∀ j, i ≤ j → j < k → env.dispatch j = Outcome.ok) →
      env.dispatch k = Outcome.err e →
      stepLoop env script steps i st =
        failBranch env script k (steps.getD (k - i) dfltStep) e
          { st with executed := st.executed + (k - i) }
  | [], i, st, k, e, hik, hk, _, _ => by
      simp only [List.length_nil, Nat.add_zero] at hk
      omega
  | step :: rest, i, st, k, e, hik, hk, hprev, hfail => by
      rcases Nat.eq_or_lt_of_le hik with heq | hlt
      · subst heq
        simp only [stepLoop, hfail, Nat.sub_self, List.getD, List.get?, Nat.add_zero]
        rfl
      · have hi : env.dispatch i = Outcome.ok := hprev i le_rfl hlt
        have ih := stepLoop_first_fail env script rest (i + 1)
          { st with executed := st.executed + 1 } k e (by omega)
          (by simp only [List.length_cons] at hk ⊢; omega)
          (fun j hj1 hj2 => hprev j (by omega) hj2) hfail
        simp only [stepLoop, hi, ih]
        have hgd : (step :: rest).getD (k - i) dfltStep = rest.getD (k - (i + 1)) dfltStep := by
          have : k - i = (k - (i + 1)) + 1 := by omega
          rw [this]
          rfl
        rw [hgd]
        congr 1
        congr 1
        omega

theorem stepLoop_snd_none_iff (env : EngineEnv) (script : TestScript) :
    ∀ (steps : List TestStep) (i : Nat) (st : LoopState),
      (stepLoop env script steps i st).2 = none ↔
        (∀ j, i ≤ j → j < i + steps.length → env.dispatch j = Outcome.ok)
  | [], i, st => by
      simp [stepLoop]
      intro j hj1 hj2
      omega
  | step :: rest, i, st => by
      cases hi : env.dispatch i with
      | ok =>
          simp only [stepLoop, hi]
          rw [stepLoop_snd_none_iff env script rest (i + 1)]
          constructor
          · intro h j hj1 hj2
            rcases Nat.eq_or_lt_of_le hj1 with heq | hlt
            · exact heq ▸ hi
            · exact h j hlt (by simp only [List.length_cons] at hj2 ⊢; omega)
          · intro h j hj1 hj2
            exact h j (by omega) (by simp only [List.length_cons] at hj2 ⊢; omega)
      | err e =>
          simp only [stepLoop, hi]
          constructor
          · intro h
            exact absurd h (failBranch_snd_ne_none env script i step e st)
          · intro h
            have := h i le_rfl (by simp only [List.length_cons]; omega)
            rw [this] at hi
            exact absurd hi (by simp)

theorem execute_script_start_time (env : EngineEnv) (script : TestScript) :
    (execute_script env script).start_time = some env.startTime := by
  unfold execute_script
  cases env.timeoutOutcome with
  | ok =>
      simp only []
      split <;> rfl
  | err m => rfl

theorem execute_script_end_time (env : EngineEnv) (script : TestScript) :
    (execute_script env script).end_time = some env.endTime := by
  unfold execute_script
  cases env.timeoutOutcome <;> rfl

/-! ## Claims about the validator and the CLI validate mode -/

/-- C1 counterexample: the claim fails as stated. Running validate-only mode on a
script whose YAML file is missing the `name` key yields exit code 0 (not 1), and the
validation error list does not contain "Script must have a name": `from_dict` defaults
a missing `name` key to "Unnamed Test", which passes the name check. -/
theorem missing_name_key_validates_clean :
    validateMode [Except.ok noNameData] = 0 ∧
      "Script must have a name" ∉ validate_script (TestScript.from_dict noNameData) := by
  constructor
  · decide
  · decide

/-- C1 (amended): in validate-only mode, a script whose parsed `name` value is the
empty string yields the validation error "Script must have a name", and any batch
containing such a script exits with code 1. (A YAML file merely missing the `name`
key instead gets the default name "Unnamed Test" and passes the name check.) -/
theorem empty_name_fails_validate_mode (data : ScriptData)
    (parses : List (Except String ScriptData))
    (hname : data.name = some "") (hmem : Except.ok data ∈ parses) :
    "Script must have a name" ∈ validate_script (TestScript.from_dict data) ∧
      validateMode parses = 1 := by
  have hempty : (TestScript.from_dict data).name = "" := by
    unfold TestScript.from_dict
    rw [hname]
    rfl
  have hmsg : "Script must have a name" ∈ validate_script (TestScript.from_dict data) := by
    unfold validate_script
    rw [if_pos hempty]
    exact List.mem_append_left _ (List.mem_append_left _ (List.mem_singleton.mpr rfl))
  refine ⟨hmsg, ?_⟩
  have hne : validate_script (TestScript.from_dict data) ≠ [] := by
    intro hnil
    rw [hnil] at hmsg
    exact List.not_mem_nil _ hmsg
  unfold validateMode
  split
  · rename_i hall
    rw [List.all_eq_true] at hall
    have h2 := hall _ hmem
    simp only [decide_eq_true_eq] at h2
    exact absurd h2 hne
  · rfl

/-- C1 witness: a concrete one-script batch whose YAML `name` value is the empty
string produces the error message and exit code 1. -/
theorem empty_name_fails_validate_mode_witness :
    "Script must have a name" ∈ validate_script (TestScript.from_dict emptyNameData) ∧
      validateMode [Except.ok emptyNameData] = 1 :=
  empty_name_fails_validate_mode emptyNameData [Except.ok emptyNameData] rfl
    (List.mem_singleton.mpr rfl)

/-- C2 counterexample: the claim fails as stated. Neither `"page"` nor `"__str__"`
is one of the 19 registered actions, yet `execute_action` raises no unknown-action
error for them: `getattr` finds the instance attribute `page` and the
`object`-inherited method `__str__`, and the dispatcher invokes what it found. -/
theorem execute_action_invokes_nonregistered_attr :
    "page" ∉ registeredActions ∧
      execute_action objectAttrs "page" [] = DispatchResult.invoked "page" [] ∧
      "__str__" ∉ registeredActions ∧
      execute_action objectAttrs "__str__" [] =
        DispatchResult.invoked "__str__" [] := by
  refine ⟨by decide, by decide, by decide, by decide⟩

/-- C2 (amended): for every action name that `getattr` cannot resolve on a
`BrowserActions` instance — any name that is neither a class-local attribute (one of
the 19 action methods, `execute_action`, `__init__`, `page`) nor of the dunder shape
`__...__` that every `object`-inherited attribute has — `execute_action` with any
parameter mapping raises the `ValueError` "Unknown action: ..." and invokes nothing
else. This holds for every Python version's inherited attribute set, quantified here
as any list of dunder names. -/
theorem execute_action_unknown_of_not_attr (inherited : List String)
    (hdunder : ∀ a ∈ inherited, isDunderName a = true)
    (action : String) (params : Params)
    (hlocal : action ∉ browserActionsAttrs)
    (hshape : isDunderName action = false) :
    execute_action inherited action params =
      DispatchResult.unknownAction ("Unknown action: " ++ action) := by
  unfold execute_action
  rw [if_neg]
  rintro (h | h)
  · exact hlocal h
  · rw [hdunder action h] at hshape
    exact absurd hshape (by simp)

/-- C2 witness: the unregistered, non-attribute, non-dunder name `"frobnicate"`
raises the unknown-action error under the CPython 3.x inherited attribute set. -/
theorem execute_action_unknown_of_not_attr_witness :
    execute_action objectAttrs "frobnicate" [("x", Val.i 0)] =
      DispatchResult.unknownAction "Unknown action: frobnicate" :=
  execute_action_unknown_of_not_attr objectAttrs (by decide) "frobnicate"
    [("x", Val.i 0)] (by decide) (by decide)

/-- C3 counterexample: the claim fails as stated. `wait` is a registered action with
required parameter `ms`; a step parameter mapping holding `ms` plus the extra
parameter `foo` does not forward `foo` to the underlying driver call: the body of
`wait` calls `page.wait_for_timeout(ms)` and drops its `**kwargs`. -/
theorem wait_drops_extra_params :
    "wait" ∈ registeredActions ∧ requiredParams "wait" = some ["ms"] ∧
      (driverCall "wait" [("ms", Val.i 5), ("foo", Val.i 1)]).2 = [("ms", Val.i 5)] ∧
      ("foo", Val.i 1) ∉ (driverCall "wait" [("ms", Val.i 5), ("foo", Val.i 1)]).2 := by
  refine ⟨by decide, by decide, by decide, by decide⟩

/-- C3 (amended): an extra parameter (one outside the action's required set) reaches
the underlying browser-driver call if and only if the action is one of the 14 whose
method body forwards `**kwargs` (`navigate`, `click`, `type`, `wait_for_selector`,
`assert_text`, `assert_visible`, `upload_file`, `screenshot`, `select_option`,
`check`, `uncheck`, `hover`, `press`, `evaluate_js`); for `wait`, `count_elements`,
`assert_count`, `assert_min_count` and `get_text` extra parameters are accepted but
silently dropped. -/
theorem extra_params_forwarded_iff (action : String) (params : Params)
    (kv : String × Val) (h : action ∈ registeredActions) (hmem : kv ∈ params)
    (hextra : kv.1 ∉ (requiredParams action).getD []) :
    kv ∈ (driverCall action params).2 ↔ action ∈ forwardingActions := by
  fin_cases h
  all_goals first
    | exact iff_of_true hmem (by decide)
    | (refine iff_of_false (fun hmem2 => ?_) (by decide)
       have h3 := (List.mem_filter.mp hmem2).2
       have h4 := of_decide_eq_true h3
       apply hextra
       rw [h4]
       decide)

/-- C3 witness: the extra parameter `force` of a `click` step is forwarded to the
driver call. -/
theorem extra_params_forwarded_iff_witness :
    ("force", Val.b true) ∈
      (driverCall "click" [("selector", Val.s "#a"), ("force", Val.b true)]).2 :=
  (extra_params_forwarded_iff "click"
      [("selector", Val.s "#a"), ("force", Val.b true)] ("force", Val.b true)
      (by decide) (by decide) (by decide)).mpr (by decide)

/-- Helper for C4: the step loop of validate_script reports no error when every step
has a registered action and carries every required parameter. -/
theorem stepsErrorsFrom_eq_nil :
    ∀ (steps : List TestStep) (i : Nat),
      (∀ step ∈ steps, step.action ∈ registeredActions ∧
        ∀ p ∈ (requiredParams step.action).getD [], p ∈ step.params.map Prod.fst) →
      stepsErrorsFrom i steps = []
  | [], _, _ => rfl
  | step :: rest, i, h => by
      obtain ⟨hreg, hparams⟩ := h step (List.mem_cons_self _ _)
      have hrest := stepsErrorsFrom_eq_nil rest (i + 1)
        (fun s hs => h s (List.mem_cons_of_mem _ hs))
      unfold stepsErrorsFrom
      rw [hrest, List.append_nil]
      have hsome : (requiredParams step.action).isSome := by
        unfold requiredParams
        rw [Option.isSome_map', List.find?_isSome]
        unfold registeredActions at hreg
        rw [List.mem_map] at hreg
        obtain ⟨kv, hkv, hkveq⟩ := hreg
        exact ⟨kv, hkv, by simp [hkveq]⟩
      obtain ⟨req, hreq⟩ := Option.isSome_iff_exists.mp hsome
      rw [hreq, Option.getD_some] at hparams
      unfold stepErrors
      rw [hreq]
      have hmiss : req.filter (fun p => decide (p ∉ step.params.map Prod.fst)) = [] := by
        rw [List.filter_eq_nil_iff]
        intro a ha
        simp only [decide_eq_true_eq, Decidable.not_not]
        exact hparams a ha
      simp only [hmiss, if_pos]

/-- C4 counterexample: the claim fails as stated. For the script with empty name and
empty steps list, every step (vacuously) has a registered action and no missing
required parameter, yet `validate_script` returns a non-empty error list: the name
and non-empty-steps checks also contribute errors. -/
theorem validate_nonnil_on_stepless_script :
    noStepScript.steps = [] ∧
      validate_script noStepScript =
        ["Script must have a name", "Script must have at least one step"] := by
  constructor
  · rfl
  · decide

/-- C4 (amended): for every script with a non-empty name and a non-empty steps list
in which every step's action is registered and no step is missing a required
parameter, `validate_script` returns the empty error list. -/
theorem validate_script_nil_of_wellformed (script : TestScript)
    (hname : script.name ≠ "") (hsteps : script.steps ≠ [])
    (hok : ∀ step ∈ script.steps, step.action ∈ registeredActions ∧
      ∀ p ∈ (requiredParams step.action).getD [], p ∈ step.params.map Prod.fst) :
    validate_script script = [] := by
  unfold validate_script
  rw [if_neg hname, if_neg hsteps, stepsErrorsFrom_eq_nil script.steps 1 hok]
  rfl

/-- C4 witness: a concrete well-formed three-step script validates with an empty
error list. -/
theorem validate_script_nil_of_wellformed_witness :
    validate_script sampleScript = [] :=
  validate_script_nil_of_wellformed sampleScript (by decide) (by decide) (by decide)

/-! ## Claims about the execution engine -/

/-- C5: once `error` has been set to the first failure message it is never
overwritten. If the first step failure of a run happens at step `k` with message `e`,
the returned result's `error` is the failure message of step `k` — whatever the
outcomes of the later screenshot call (whose own exception may replace the re-raise
but must not touch `error`). -/
theorem result_error_eq_first_failure (env : EngineEnv) (script : TestScript)
    (k : Nat) (e : String) (hk1 : 1 ≤ k) (hkn : k ≤ script.steps.length)
    (hprev : ∀ j, 1 ≤ j → j < k → env.dispatch j = Outcome.ok)
    (hfail : env.dispatch k = Outcome.err e)
    (ht : env.timeoutOutcome = Outcome.ok) :
    (execute_script env script).error =
      some (stepFailureMsg k (script.steps.getD (k - 1) dfltStep) e) := by
  have hL := stepLoop_first_fail env script script.steps 1 ⟨0, none, []⟩ k e hk1
    (by omega) hprev hfail
  obtain ⟨x, hx⟩ := Option.ne_none_iff_exists'.mp
    (failBranch_snd_ne_none env script k (script.steps.getD (k - 1) dfltStep) e
      { executed := 0 + (k - 1), errField := none, shots := [] })
  unfold execute_script
  rw [ht]
  simp only [hL, hx, failBranch_fst_errField]

/-- C6: when the first step failure of a run happens at step `k`, the returned
result's `steps_executed` is `k - 1`: exactly the prior successful steps, not
counting the failing step or any step after it. -/
theorem steps_executed_eq_prior_successes (env : EngineEnv) (script : TestScript)
    (k : Nat) (e : String) (hk1 : 1 ≤ k) (hkn : k ≤ script.steps.length)
    (hprev : ∀ j, 1 ≤ j → j < k → env.dispatch j = Outcome.ok)
    (hfail : env.dispatch k = Outcome.err e)
    (ht : env.timeoutOutcome = Outcome.ok) :
    (execute_script env script).steps_executed = k - 1 := by
  have hL := stepLoop_first_fail env script script.steps 1 ⟨0, none, []⟩ k e hk1
    (by omega) hprev hfail
  obtain ⟨x, hx⟩ := Option.ne_none_iff_exists'.mp
    (failBranch_snd_ne_none env script k (script.steps.getD (k - 1) dfltStep) e
      { executed := 0 + (k - 1), errField := none, shots := [] })
  unfold execute_script
  rw [ht]
  simp only [hL, hx, failBranch_fst_executed]
  omega

/-- C5 witness: in the three-step sample script whose step 2 raises `"boom"`, the
result's error is the step-2 failure message. -/
theorem result_error_eq_first_failure_witness :
    (execute_script failAt2Env sampleScript).error =
      some "Step 2 failed (assert_text): boom" :=
  result_error_eq_first_failure failAt2Env sampleScript 2 "boom" (by decide) (by decide)
    (fun j h1 h2 => by
      have hj : j = 1 := by omega
      rw [hj]
      rfl)
    rfl rfl

/-- C6 witness: in the three-step sample script whose step 2 raises, exactly the one
prior successful step is counted. -/
theorem steps_executed_eq_prior_successes_witness :
    (execute_script failAt2Env sampleScript).steps_executed = 1 :=
  steps_executed_eq_prior_successes failAt2Env sampleScript 2 "boom" (by decide)
    (by decide)
    (fun j h1 h2 => by
      have hj : j = 1 := by omega
      rw [hj]
      rfl)
    rfl rfl

/-- C7: the result's `passed` is true iff the timeout setup raised nothing and every
step of the script was dispatched without raising — i.e. iff no exception escaped to
the finalize phase (the failure-screenshot call is only reached after a step has
already failed). -/
theorem passed_iff_all_steps_ok (env : EngineEnv) (script : TestScript) :
    (execute_script env script).passed = true ↔
      (env.timeoutOutcome = Outcome.ok ∧
        ∀ i, 1 ≤ i → i ≤ script.steps.length → env.dispatch i = Outcome.ok) := by
  cases ht : env.timeoutOutcome with
  | err m =>
      unfold execute_script
      rw [ht]
      simp
  | ok =>
      cases hp : stepLoop env script script.steps 1 ⟨0, none, []⟩ with
      | mk st exc =>
          cases exc with
          | none =>
              have hall := (stepLoop_snd_none_iff env script script.steps 1
                  ⟨0, none, []⟩).mp (by rw [hp])
              have hpassed : (execute_script env script).passed = true := by
                unfold execute_script
                rw [ht]
                simp only [hp]
              constructor
              · intro _
                exact ⟨rfl, fun i h1 h2 => hall i h1 (by omega)⟩
              · intro _
                exact hpassed
          | some e =>
              have hpassed : (execute_script env script).passed = false := by
                unfold execute_script
                rw [ht]
                simp only [hp]
              constructor
              · intro h
                rw [hpassed] at h
                exact absurd h (by simp)
              · rintro ⟨-, hall⟩
                have hnone : (stepLoop env script script.steps 1 ⟨0, none, []⟩).2 = none :=
                  (stepLoop_snd_none_iff env script script.steps 1 ⟨0, none, []⟩).mpr
                    (fun j hj1 hj2 => hall j hj1 (by omega))
                rw [hp] at hnone
                exact absurd hnone (by simp)

/-- C7 witness: with every external call succeeding, the three-step sample script
passes. -/
theorem passed_iff_all_steps_ok_witness :
    (execute_script allOkEnv sampleScript).passed = true :=
  (passed_iff_all_steps_ok allOkEnv sampleScript).mpr ⟨rfl, fun _ _ _ => rfl⟩

/-- C8 counterexample: the claim fails as stated. `duration` is computed as the bare
difference of the two timestamps, so a `TestResult` whose `end_time` precedes its
`start_time` has a negative duration. -/
theorem duration_negative_example :
    TestResult.duration
      { script_name := "t", passed := false, error := none, start_time := some 1,
        end_time := some 0, steps_executed := 0, steps_total := 0,
        screenshots := [] } < 0 := by
  decide

/-- C8 (amended): `duration` is `0.0` whenever `start_time` or `end_time` is unset,
and is non-negative whenever `end_time` is not earlier than `start_time` — in
particular for every result of `execute_script` run under a monotone clock (its
`end_time` reading taken after its `start_time` reading). -/
theorem duration_zero_or_nonneg :
    (∀ r : TestResult, (r.start_time = none ∨ r.end_time = none) → r.duration = 0) ∧
      (∀ (r : TestResult) (s e : Int), r.start_time = some s → r.end_time = some e →
        s ≤ e → 0 ≤ r.duration) ∧
      (∀ (env : EngineEnv) (script : TestScript), env.startTime ≤ env.endTime →
        0 ≤ (execute_script env script).duration) := by
  refine ⟨?_, ?_, ?_⟩
  · intro r h
    unfold TestResult.duration
    rcases h with h | h
    · rw [h]
    · rw [h]
      cases r.start_time <;> rfl
  · intro r s e hs he hle
    unfold TestResult.duration
    rw [hs, he]
    show (0 : Int) ≤ e - s
    omega
  · intro env script h
    unfold TestResult.duration
    rw [execute_script_start_time, execute_script_end_time]
    show (0 : Int) ≤ env.endTime - env.startTime
    omega

/-- C8 witness: a fresh result (no timestamps) has duration 0, and a concrete run
whose clock readings are in order has non-negative duration. -/
theorem duration_zero_or_nonneg_witness :
    TestResult.duration (TestResult.init "w") = 0 ∧
      0 ≤ (execute_script allOkEnv sampleScript).duration :=
  ⟨duration_zero_or_nonneg.1 (TestResult.init "w") (Or.inl rfl),
   duration_zero_or_nonneg.2.2 allOkEnv sampleScript (by decide)⟩

/-- C10: called directly on a script whose steps list is empty (and with the timeout
setup succeeding), `execute_script` returns a vacuously passing result: `passed` is
true, `error` unset, and both step counters zero. -/
theorem empty_script_passes (env : EngineEnv) (script : TestScript)
    (hsteps : script.steps = []) (ht : env.timeoutOutcome = Outcome.ok) :
    (execute_script env script).passed = true ∧
      (execute_script env script).error = none ∧
      (execute_script env script).steps_executed = 0 ∧
      (execute_script env script).steps_total = 0 := by
  unfold execute_script
  rw [ht, hsteps]
  exact ⟨rfl, rfl, rfl, rfl⟩

/-- C10 witness: the concrete empty-steps script passes vacuously. -/
theorem empty_script_passes_witness :
    (execute_script allOkEnv emptySteps).passed = true ∧
      (execute_script allOkEnv emptySteps).error = none ∧
      (execute_script allOkEnv emptySteps).steps_executed = 0 ∧
      (execute_script allOkEnv emptySteps).steps_total = 0 :=
  empty_script_passes allOkEnv emptySteps rfl rfl

/-! ## Claim about batch orchestration -/

/-- C9: a load/validation failure of one script of a batch does not abort the rest:
the failing script contributes a fresh result with `passed = false` and `error` set to
the exception message, the scripts before it keep their results, and every script
after it is still processed with exactly the result it would get on its own. -/
theorem run_tests_isolates_failures (pre post : List ScriptJob) (job : ScriptJob)
    (e : String) (hfail : run_test_file job.parse job.env = Except.error e) :
    (run_tests (pre ++ job :: post)).1 =
        (run_tests pre).1 ++
          ({ TestResult.init job.path with error := some e } :: (run_tests post).1) ∧
      ({ TestResult.init job.path with error := some e } : TestResult).passed = false := by
  have hjob : runOneJob job = { TestResult.init job.path with error := some e } := by
    unfold runOneJob
    rw [hfail]
  constructor
  · show (pre ++ job :: post).map runOneJob =
        pre.map runOneJob ++
          ({ TestResult.init job.path with error := some e } :: post.map runOneJob)
    rw [List.map_append, List.map_cons, hjob]
  · rfl

/-- C9 witness: Scenario D — a two-script batch whose first file is missing still
processes the second script; the first result is failed with its error set and the
second is the second script's own independent result. -/
theorem run_tests_isolates_failures_witness :
    (run_tests [badJob, goodJob]).1 =
        (run_tests ([] : List ScriptJob)).1 ++
          ({ TestResult.init badJob.path with
              error := some "Test script not found: missing.yaml" } ::
            (run_tests [goodJob]).1) ∧
      ({ TestResult.init badJob.path with
          error := some "Test script not found: missing.yaml" } : TestResult).passed =
        false :=
  run_tests_isolates_failures [] [goodJob] badJob "Test script not found: missing.yaml"
    rfl

end AutoTest
